import Mathlib

/-!
Verification of the financial-statement-downloader pipeline (src/main.py).

The script is shallowly embedded: each Python function becomes a Lean
definition over explicit data (strings as `List Char` wrapped in `String`,
pandas DataFrames as a record of labels and rows, I/O as an explicit event
trace). Theorems below settle the frozen claims about the specification.
-/

namespace FinDl

/-! ## Identifier sanitizer (src/main.py, `safe_folder_name`, lines 15-19) -/

/-- Python `str.isspace` restricted to the ASCII whitespace characters
(the ticker inputs in scope are ASCII). Mirrors what `s.strip()` strips. -/
def pyIsSpace (c : Char) : Bool :=
  c = ' ' || c = '\t' || c = '\n' || c = '\r' || c = '\x0b' || c = '\x0c'

/-- Drop trailing characters satisfying `p`, as the right half of Python
`str.strip`. -/
def dropTrailWhile (p : Char → Bool) (l : List Char) : List Char :=
  (l.reverse.dropWhile p).reverse

/-- Python `s.strip()` on the character list of a string. -/
def pyStripL (l : List Char) : List Char :=
  dropTrailWhile pyIsSpace (l.dropWhile pyIsSpace)

/-- Python `s.strip()`. -/
def pyStrip (s : String) : String :=
  ⟨pyStripL s.data⟩

/-- Python `s.replace(".", "_")` acts characterwise for one-character
patterns. -/
def dotToUnderscore (c : Char) : Char :=
  if c = '.' then '_' else c

/-- Membership in the regex class `[A-Za-z0-9_\-]` of `safe_folder_name`. -/
def isSafeChar (c : Char) : Bool :=
  ('A' ≤ c && c ≤ 'Z') || ('a' ≤ c && c ≤ 'z') || ('0' ≤ c && c ≤ '9') ||
    c = '_' || c = '-'

/-- Python `re.sub(r"[^A-Za-z0-9_\-]+", "_", s)`: every maximal run of
characters outside the class is replaced by a single underscore. The Boolean
flag records whether the previous character was part of such a run, so the
replacement is emitted once per run. -/
def subUnsafeRuns : Bool → List Char → List Char
  | _, [] => []
  | inRun, c :: cs =>
    if isSafeChar c then c :: subUnsafeRuns false cs
    else if inRun then subUnsafeRuns true cs
    else '_' :: subUnsafeRuns true cs

/-- `safe_folder_name` (src/main.py lines 15-19): strip, replace `.` by `_`,
then collapse every run of characters outside `[A-Za-z0-9_\-]` to `_`. -/
def safe_folder_name (s : String) : String :=
  ⟨subUnsafeRuns false ((pyStripL s.data).map dotToUnderscore)⟩

/-! ### Lemmas about the sanitizer -/

theorem mem_subUnsafeRuns_safe (l : List Char) :
    ∀ b, ∀ c ∈ subUnsafeRuns b l, isSafeChar c = true := by
  induction l with
  | nil => intro b c hc; simp [subUnsafeRuns] at hc
  | cons a as ih =>
    intro b c hc
    by_cases ha : isSafeChar a = true
    · simp only [subUnsafeRuns, ha, if_true, List.mem_cons] at hc
      rcases hc with rfl | hc
      · exact ha
      · exact ih false c hc
    · have ha' : isSafeChar a = false := by
        cases hq : isSafeChar a
        · rfl
        · exact absurd hq ha
      cases b with
      | true =>
        simp only [subUnsafeRuns, ha', Bool.false_eq_true, if_false,
          if_true] at hc
        exact ih true c hc
      | false =>
        simp only [subUnsafeRuns, ha', Bool.false_eq_true, if_false,
          List.mem_cons] at hc
        rcases hc with rfl | hc
        · decide
        · exact ih true c hc

theorem safeChar_not_space {c : Char} (h : isSafeChar c = true) :
    pyIsSpace c = false := by
  cases hp : pyIsSpace c
  · rfl
  · exfalso
    simp only [pyIsSpace, Bool.or_eq_true, decide_eq_true_eq] at hp
    rcases hp with ((((h1 | h1) | h1) | h1) | h1) | h1 <;>
      (subst h1; exact absurd h (by decide))

theorem safeChar_not_dot {c : Char} (h : isSafeChar c = true) : c ≠ '.' := by
  intro hc
  subst hc
  exact absurd h (by decide)

theorem dropWhile_of_all_false {p : Char → Bool} {l : List Char}
    (h : ∀ c ∈ l, p c = false) : l.dropWhile p = l := by
  cases l with
  | nil => rfl
  | cons a as => simp [List.dropWhile, h a (List.mem_cons_self a as)]

theorem pyStripL_of_safe {l : List Char}
    (h : ∀ c ∈ l, isSafeChar c = true) : pyStripL l = l := by
  unfold pyStripL dropTrailWhile
  rw [dropWhile_of_all_false fun c hc => safeChar_not_space (h c hc)]
  rw [dropWhile_of_all_false fun c hc =>
    safeChar_not_space (h c (List.mem_reverse.mp hc))]
  exact List.reverse_reverse l

theorem map_dot_of_safe {l : List Char}
    (h : ∀ c ∈ l, isSafeChar c = true) : l.map dotToUnderscore = l := by
  induction l with
  | nil => rfl
  | cons a as ih =>
    have ha := h a (List.mem_cons_self a as)
    simp only [List.map_cons]
    rw [ih fun c hc => h c (List.mem_cons_of_mem a hc)]
    simp [dotToUnderscore, safeChar_not_dot ha]

theorem subUnsafeRuns_of_safe {l : List Char}
    (h : ∀ c ∈ l, isSafeChar c = true) : subUnsafeRuns false l = l := by
  induction l with
  | nil => rfl
  | cons a as ih =>
    rw [subUnsafeRuns, if_pos (h a (List.mem_cons_self a as))]
    rw [ih fun c hc => h c (List.mem_cons_of_mem a hc)]

/-! ## DataFrame model and the statement normalizer
(src/main.py, `clean_statement_no_transpose`, lines 22-34) -/

/-- A cell value of a raw statement table: a numeric entry or a missing
value (pandas NaN). The normalizer never inspects values, so this closed
type suffices. -/
inductive Val where
  | int (n : Int)
  | nan
  deriving DecidableEq, Repr

/-- A pandas column label as the statements use them: a period end-date
(year, month, day — pandas stringifies a date `Timestamp` to a dashed
ISO-like form) or a plain string label. -/
inductive Label where
  | date (y m d : Nat)
  | name (s : String)
  deriving DecidableEq, Repr

/-- Two-digit zero padding used in the dashed date rendering. -/
def pad2 (n : Nat) : String :=
  if n < 10 then "0" ++ toString n else toString n

/-- Python `str(c)` on a column label: a date label renders to
`"YYYY-MM-DD"` (the dashed date prefix of pandas `str(Timestamp)`); a string
label renders to itself. -/
def strLabel : Label → String
  | .date y m d => toString y ++ "-" ++ pad2 m ++ "-" ++ pad2 d
  | .name s => s

/-- A pandas DataFrame as fetched from the provider: an unnamed index of
row labels paired with each row's values, plus the column labels. (The
yfinance statement frames carry an unnamed index of line-item strings, so
`reset_index` materializes it under the default column name `"index"`.) -/
structure DataFrame where
  colLabels : List Label
  rows : List (String × List Val)
  deriving DecidableEq, Repr

/-- pandas `DataFrame.empty`: true when any axis has length zero. -/
def DataFrame.isEmptyDF (df : DataFrame) : Bool :=
  df.rows.isEmpty || df.colLabels.isEmpty

/-- A cell of the normalized (export-ready) table: either a string put
there by the reshape (`line_item` / `statement` entries) or an original
value. -/
inductive Cell where
  | s (v : String)
  | v (a : Val)
  deriving DecidableEq, Repr

/-- The normalized table: explicit string header plus data rows of cells
(object-dtype pandas frame headed for CSV). -/
structure OutFrame where
  header : List String
  data : List (List Cell)
  deriving DecidableEq, Repr

/-- `pd.DataFrame()`: the empty result returned for absent or empty
statements. -/
def emptyOut : OutFrame := ⟨[], []⟩

/-- pandas `DataFrame.empty` on the normalized table. -/
def OutFrame.isEmptyOF (f : OutFrame) : Bool :=
  f.data.isEmpty || f.header.isEmpty

/-- `df.insert(loc, column, value)` positional insertion into a list. -/
def insertAt {α : Type} : Nat → α → List α → List α
  | 0, a, l => a :: l
  | _ + 1, a, [] => [a]
  | n + 1, a, x :: xs => x :: insertAt n a xs

/-- `clean_statement_no_transpose` (src/main.py lines 22-34): if the input
frame is `None` or empty, return `pd.DataFrame()`; otherwise stringify the
column labels, `reset_index()` (materializing the unnamed index as a column
named `"index"`), rename that column to `"line_item"`, and insert a constant
`"statement"` column at position 1. -/
def clean_statement_no_transpose (df? : Option DataFrame)
    (statement_name : String) : OutFrame :=
  match df? with
  | none => emptyOut
  | some df =>
    if df.isEmptyDF then emptyOut
    else
      let cols' := df.colLabels.map strLabel
      let header1 := "index" :: cols'
      let data1 := df.rows.map fun r => Cell.s r.1 :: r.2.map Cell.v
      let header2 := header1.map fun c =>
        if c = "index" then "line_item" else c
      ⟨insertAt 1 "statement" header2,
        data1.map (insertAt 1 (Cell.s statement_name))⟩

/-! ### Lemmas about the normalizer -/

theorem strLabel_date_ne_index (y m d : Nat) :
    strLabel (Label.date y m d) ≠ "index" := by
  intro h
  have hmem : '-' ∈ (strLabel (Label.date y m d)).data := by
    show '-' ∈ (toString y ++ "-" ++ pad2 m ++ "-" ++ pad2 d).data
    simp only [String.data_append, List.mem_append]
    refine Or.inl (Or.inl (Or.inl (Or.inr ?_)))
    decide
  rw [h] at hmem
  exact absurd hmem (by decide)

theorem insertAt_one_cons {α : Type} (a x : α) (xs : List α) :
    insertAt 1 a (x :: xs) = x :: a :: xs := rfl

/-! ### Claims C1 and C5 -/

/-- C1: for a non-empty raw statement with `N` line items and `M` period
(date) columns, the normalizer returns a table with exactly `N` rows in the
original order and `M + 2` columns: column 0 is `line_item` holding the row
labels, column 1 is `statement` holding the kind label in every row, and the
remaining `M` columns are the stringified period labels in order with all
values preserved verbatim. -/
theorem clean_statement_shape (df : DataFrame) (name : String)
    (hdates : ∀ l ∈ df.colLabels, ∃ y m d, l = Label.date y m d)
    (hN : df.rows ≠ []) (hM : df.colLabels ≠ []) :
    (clean_statement_no_transpose (some df) name).header =
        "line_item" :: "statement" :: df.colLabels.map strLabel ∧
      (clean_statement_no_transpose (some df) name).header.length =
        df.colLabels.length + 2 ∧
      (clean_statement_no_transpose (some df) name).data =
        df.rows.map (fun r => Cell.s r.1 :: Cell.s name :: r.2.map Cell.v) ∧
      (clean_statement_no_transpose (some df) name).data.length =
        df.rows.length := by
  have hne : df.isEmptyDF = false := by
    simp [DataFrame.isEmptyDF, hN, hM]
  have hren : (df.colLabels.map strLabel).map
      (fun c => if c = "index" then "line_item" else c) =
      df.colLabels.map strLabel := by
    rw [List.map_map]
    apply List.map_congr_left
    intro l hl
    obtain ⟨y, m, d, rfl⟩ := hdates l hl
    simp [Function.comp, strLabel_date_ne_index y m d]
  have hhead : (clean_statement_no_transpose (some df) name).header =
      "line_item" :: "statement" :: df.colLabels.map strLabel := by
    simp only [clean_statement_no_transpose, hne, Bool.false_eq_true,
      if_false, List.map_cons]
    rw [hren, insertAt_one_cons]
    simp
  have hdata : (clean_statement_no_transpose (some df) name).data =
      df.rows.map fun r => Cell.s r.1 :: Cell.s name :: r.2.map Cell.v := by
    simp only [clean_statement_no_transpose, hne, Bool.false_eq_true,
      if_false]
    rw [List.map_map]
    apply List.map_congr_left
    intro r _
    simp [Function.comp, insertAt_one_cons]
  refine ⟨hhead, ?_, hdata, ?_⟩
  · rw [hhead]; simp
  · rw [hdata]; simp

/-- Witness for C1 on a concrete one-row, one-period statement. -/
theorem clean_statement_shape_witness :
    (clean_statement_no_transpose
        (some ⟨[Label.date 2023 12 31], [("Total Revenue", [Val.int 5])]⟩)
        "income").header =
      "line_item" :: "statement" ::
        ([Label.date 2023 12 31].map strLabel) ∧
    (clean_statement_no_transpose
        (some ⟨[Label.date 2023 12 31], [("Total Revenue", [Val.int 5])]⟩)
        "income").header.length = 1 + 2 ∧
    (clean_statement_no_transpose
        (some ⟨[Label.date 2023 12 31], [("Total Revenue", [Val.int 5])]⟩)
        "income").data =
      [("Total Revenue", [Val.int 5])].map
        (fun r => Cell.s r.1 :: Cell.s "income" :: r.2.map Cell.v) ∧
    (clean_statement_no_transpose
        (some ⟨[Label.date 2023 12 31], [("Total Revenue", [Val.int 5])]⟩)
        "income").data.length = 1 :=
  clean_statement_shape
    ⟨[Label.date 2023 12 31], [("Total Revenue", [Val.int 5])]⟩ "income"
    (by intro l hl; simp at hl; exact ⟨2023, 12, 31, hl⟩)
    (by decide) (by decide)

/-- C5: the normalizer maps an absent (`None`) or zero-row statement to the
empty table, for any statement-kind label; this is an ordinary return, not
an error (the embedded function is total). -/
theorem clean_statement_empty (name : String) (df : DataFrame)
    (hz : df.rows = []) :
    clean_statement_no_transpose none name = emptyOut ∧
      clean_statement_no_transpose (some df) name = emptyOut := by
  constructor
  · rfl
  · have : df.isEmptyDF = true := by simp [DataFrame.isEmptyDF, hz]
    simp [clean_statement_no_transpose, this]

/-- Witness for C5 on a concrete zero-row statement carrying one period
column. -/
theorem clean_statement_empty_witness :
    clean_statement_no_transpose none "balance_sheet" = emptyOut ∧
      clean_statement_no_transpose (some ⟨[Label.date 2024 6 30], []⟩)
        "balance_sheet" = emptyOut :=
  clean_statement_empty "balance_sheet" ⟨[Label.date 2024 6 30], []⟩ rfl

/-! ### Claims C3 and C4 -/

/-- C3: `safe_folder_name` is total (a Lean function), every character of its
output lies in `[A-Za-z0-9_-]`, and the two specified examples hold:
`safe_folder_name "CBA.AX" = "CBA_AX"` and
`safe_folder_name "  BRK.B " = "BRK_B"`. -/
theorem safe_folder_name_chars_safe (s : String) (c : Char)
    (hc : c ∈ (safe_folder_name s).data) :
    isSafeChar c = true ∧
      safe_folder_name "CBA.AX" = "CBA_AX" ∧
      safe_folder_name "  BRK.B " = "BRK_B" := by
  refine ⟨?_, by decide, by decide⟩
  exact mem_subUnsafeRuns_safe _ false c hc

/-- Witness for C3 at the concrete input `"CBA.AX"` and its first output
character. -/
theorem safe_folder_name_chars_safe_witness :
    isSafeChar 'C' = true ∧
      safe_folder_name "CBA.AX" = "CBA_AX" ∧
      safe_folder_name "  BRK.B " = "BRK_B" :=
  safe_folder_name_chars_safe "CBA.AX" 'C' (by decide)

/-- C4: the identifier sanitizer is idempotent:
`safe_folder_name (safe_folder_name x) = safe_folder_name x` for every
string `x`. -/
theorem safe_folder_name_idempotent (x : String) :
    safe_folder_name (safe_folder_name x) = safe_folder_name x := by
  have hsafe : ∀ c ∈ (safe_folder_name x).data, isSafeChar c = true :=
    fun c hc => mem_subUnsafeRuns_safe _ false c hc
  show (⟨subUnsafeRuns false
      ((pyStripL (safe_folder_name x).data).map dotToUnderscore)⟩ : String) =
    safe_folder_name x
  rw [pyStripL_of_safe hsafe, map_dot_of_safe hsafe, subUnsafeRuns_of_safe hsafe]

/-! ## Paths, events and the CSV exporter
(src/main.py, `save_csv`, lines 37-45) -/

/-- A filesystem path as a list of segments (`pathlib.Path` parts). -/
abbrev FPath : Type := List String

/-- `path.name`: the final path component (empty for an empty path). -/
def pathName (p : FPath) : String :=
  (List.getLast? p).getD ""

/-- `path.parent` (for the non-trivial paths the script uses): all but the
final component. -/
def pathParent (p : FPath) : FPath :=
  List.dropLast p

/-- `path.as_posix()`: components joined by forward slashes. -/
def pathPosix (p : FPath) : String :=
  String.intercalate "/" p

/-- How pandas `to_csv` renders a raw value: integers in decimal, missing
values as an empty field. -/
def valStr : Val → String
  | .int n => toString n
  | .nan => ""

/-- CSV rendering of a normalized-table cell. -/
def cellStr : Cell → String
  | .s v => v
  | .v a => valStr a

/-- A written CSV file: whether the encoding carried a byte-order mark
(`utf-8-sig` does), the header row, and the data rows. -/
structure CsvFile where
  bom : Bool
  header : List String
  rows : List (List String)
  deriving DecidableEq, Repr

/-- `df.to_csv(path, index=False, encoding="utf-8-sig")`: header plus one
rendered line per data row, BOM-prefixed UTF-8. -/
def csvOf (f : OutFrame) : CsvFile :=
  ⟨true, f.header, f.data.map (List.map cellStr)⟩

/-- JSON values as `json.dump` sees them (enough structure for the run
manifest; the float `duration_sec` is carried as its rounded numeric value,
whose exact arithmetic no claim touches). -/
inductive J where
  | str (s : String)
  | num (n : Int)
  | bool (b : Bool)
  | arr (elems : List J)
  | obj (fields : List (String × J))

/-- Observable side effects of the script, in program order: console
prints, recursive directory creation, CSV writes, JSON writes, and network
fetches from the data provider. -/
inductive Event where
  | msg (s : String)
  | mkdirP (p : FPath)
  | writeCsv (p : FPath) (f : CsvFile)
  | writeJson (p : FPath) (j : List (String × J))
  | fetch (attr : String)

/-- `save_csv` (src/main.py lines 37-45): skip empty tables with a warning
and `False`; otherwise create the parent directories, write the CSV with a
BOM, print a success notice, and return `True`. Returns the flag together
with the emitted events in order. -/
def save_csv (df? : Option OutFrame) (p : FPath) : Bool × List Event :=
  match df? with
  | none => (false, [.msg ("[WARN] Not saved (empty): " ++ pathName p)])
  | some f =>
    if f.isEmptyOF then
      (false, [.msg ("[WARN] Not saved (empty): " ++ pathName p)])
    else
      (true, [.mkdirP (pathParent p), .writeCsv p (csvOf f),
        .msg ("[OK] Saved: " ++ pathPosix p)])

/-- C6: on an absent or empty table `save_csv` writes nothing, emits a
warning naming the file, and reports not-saved; on a non-empty table with
`N` rows it creates the parent directories, writes exactly one file — a
BOM-prefixed UTF-8 CSV whose header row is the table header and whose `N`
data rows render the table's rows — and reports saved. -/
theorem save_csv_spec (df? : Option OutFrame) (p : FPath) :
    ((df? = none ∨ ∃ f, df? = some f ∧ f.isEmptyOF = true) →
      (save_csv df? p).1 = false ∧
        (save_csv df? p).2 =
          [Event.msg ("[WARN] Not saved (empty): " ++ pathName p)] ∧
        ∀ q c, Event.writeCsv q c ∉ (save_csv df? p).2) ∧
    (∀ f, df? = some f → f.isEmptyOF = false →
      (save_csv df? p).1 = true ∧
        (save_csv df? p).2 =
          [Event.mkdirP (pathParent p),
            Event.writeCsv p ⟨true, f.header, f.data.map (List.map cellStr)⟩,
            Event.msg ("[OK] Saved: " ++ pathPosix p)] ∧
        (f.data.map (List.map cellStr)).length = f.data.length) := by
  constructor
  · rintro (rfl | ⟨f, rfl, hf⟩)
    · exact ⟨rfl, rfl, by intro q c h; simp [save_csv] at h⟩
    · refine ⟨?_, ?_, ?_⟩
      · simp [save_csv, hf]
      · simp [save_csv, hf]
      · intro q c h
        simp [save_csv, hf] at h
  · rintro f rfl hf
    refine ⟨?_, ?_, by simp⟩
    · simp [save_csv, hf]
    · simp [save_csv, hf, csvOf]

/-- Witness for C6: the empty branch at `none` and the non-empty branch at
a concrete one-row table. -/
theorem save_csv_spec_witness :
    (save_csv none (["outputs", "x.csv"] : FPath)).1 = false ∧
      (save_csv (some ⟨["line_item"], [[Cell.s "a"]]⟩)
        (["outputs", "x.csv"] : FPath)).1 = true :=
  ⟨((save_csv_spec none (["outputs", "x.csv"] : FPath)).1 (Or.inl rfl)).1,
    ((save_csv_spec (some ⟨["line_item"], [[Cell.s "a"]]⟩)
        (["outputs", "x.csv"] : FPath)).2
      ⟨["line_item"], [[Cell.s "a"]]⟩ rfl rfl).1⟩

/-! ## Summary builder (src/main.py, `df_summary`, lines 48-56) -/

/-- `df_summary` (src/main.py lines 48-56): shape metadata for the
manifest. -/
def df_summary (df? : Option OutFrame) : J :=
  match df? with
  | none => .obj [("empty", .bool true), ("rows", .num 0), ("cols", .num 0),
      ("columns", .arr [])]
  | some f =>
    if f.isEmptyOF then
      .obj [("empty", .bool true), ("rows", .num 0), ("cols", .num 0),
        ("columns", .arr [])]
    else
      .obj [("empty", .bool false), ("rows", .num f.data.length),
        ("cols", .num f.header.length),
        ("columns", .arr (f.header.map .str))]

/-! ## Fallback JSON serializer (src/main.py, `_json_default`, lines 59-71) -/

/-- A primitive value produced by `.item()` on a numpy-style scalar
wrapper. -/
inductive Prim where
  | int (n : Int)
  | bool (b : Bool)
  | str (s : String)
  deriving DecidableEq, Repr

/-- What the serializer may return: a plain string or an unwrapped
primitive. -/
inductive JsonLeaf where
  | str (s : String)
  | prim (p : Prim)
  deriving DecidableEq, Repr

/-- The value shapes reaching `_json_default`, dispatched in the source's
order: `pathlib.Path` instances (with their `str()` rendering), `datetime` /
`pd.Timestamp` instances (with their `isoformat()` rendering), objects
exposing an `.item()` scalar extraction that either succeeds or raises, and
every other object (with its `str()` rendering). -/
inductive PyObj where
  | path (s : String)
  | timestamp (iso : String)
  | withItem (item : Except Unit Prim) (strRepr : String)
  | plain (strRepr : String)

/-- `_json_default` (src/main.py lines 59-71): paths become plain strings,
timestamps become ISO-8601 strings, `.item()` wrappers are unwrapped when
extraction succeeds, and everything else — including a wrapper whose
extraction raises — degrades to its string representation. -/
def json_default : PyObj → JsonLeaf
  | .path s => .str s
  | .timestamp iso => .str iso
  | .withItem (.ok p) _ => .prim p
  | .withItem (.error _) r => .str r
  | .plain r => .str r

/-- C9: the fallback serializer is a total function — it returns a value on
every input shape and never fails: paths map to their plain string,
timestamps to their ISO-8601 string, scalar wrappers to their extracted
primitive when extraction succeeds, and any other value (including a
wrapper whose extraction raises) to its string representation. -/
theorem json_default_total :
    (∀ s, json_default (.path s) = .str s) ∧
      (∀ iso, json_default (.timestamp iso) = .str iso) ∧
      (∀ p r, json_default (.withItem (.ok p) r) = .prim p) ∧
      (∀ r, json_default (.withItem (.error ()) r) = .str r) ∧
      (∀ r, json_default (.plain r) = .str r) :=
  ⟨fun _ => rfl, fun _ => rfl, fun _ _ => rfl, fun _ => rfl, fun _ => rfl⟩

/-! ## Orchestrator (src/main.py, `main`, lines 81-170)

The script's external world is injected as an environment: operator input,
the run timestamp, the three lazily fetched statements (each of which may
raise), the best-effort `fast_info` facility, and the environment strings.
`main` is embedded as a function from this environment to a result carrying
the ordered event trace and, on completion, the manifest dictionary. -/

/-- Python `s.upper()` (ASCII uppercasing; tickers are ASCII). -/
def pyUpper (s : String) : String :=
  ⟨s.data.map Char.toUpper⟩

/-- The injected external world of one run. `Except Unit` models a raising
call; statement accessors and the quote facility fetch lazily on access. -/
structure Env where
  tickerInput : String
  ts : String
  financials : Except Unit (Option DataFrame)
  balance_sheet : Except Unit (Option DataFrame)
  cashflow : Except Unit (Option DataFrame)
  fast_info : Except Unit (Option (String → Except Unit J))
  run_started : String
  run_ended : String
  duration_sec : Int
  pythonVersion : String
  pandasVersion : String
  yfVersion : String
  platformStr : String

/-- Outcome of a run: clean early return on an empty ticker, an unhandled
provider exception, or normal completion with the manifest. Each carries
the events emitted before the run ended. -/
inductive RunResult where
  | earlyExit (events : List Event)
  | fetchError (events : List Event)
  | completed (events : List Event) (meta : List (String × J))

/-- The events a run emitted. -/
def eventsOf : RunResult → List Event
  | .earlyExit ev => ev
  | .fetchError ev => ev
  | .completed ev _ => ev

/-- The manifest of a completed run. -/
def metaOf : RunResult → Option (List (String × J))
  | .completed _ m => some m
  | _ => none

/-- Whether the run completed normally. -/
def isCompleted : RunResult → Bool
  | .completed _ _ => true
  | _ => false

/-- Top-level key list of a completed run's manifest (empty otherwise). -/
def metaKeysOf (r : RunResult) : List String :=
  ((metaOf r).map (List.map Prod.fst)).getD []

/-- Look up a top-level manifest field of a completed run. -/
def metaField (r : RunResult) (k : String) : Option J :=
  (metaOf r).bind (List.lookup k)

/-- The seven fixed quote-snapshot keys (src/main.py line 141). -/
def fiKeys : List String :=
  ["currency", "exchange", "quoteType", "marketCap", "lastPrice",
    "previousClose", "timezone"]

/-- The quote-snapshot stage (src/main.py lines 136-148): if the facility
itself is unavailable or raises, the snapshot is empty; otherwise each of
the seven keys is looked up independently and a key whose lookup raises is
omitted. -/
def fastInfoSelected (fi : Except Unit (Option (String → Except Unit J))) :
    List (String × J) :=
  match fi with
  | .error _ => []
  | .ok none => []
  | .ok (some f) =>
    fiKeys.filterMap fun k =>
      match f k with
      | .ok v => some (k, v)
      | .error _ => none

/-- One entry of the manifest's `generated_files` mapping
(src/main.py lines 113-117). -/
def exportEntry (saved : Bool) (p : FPath) (f : OutFrame) : J :=
  .obj [("saved", .bool saved), ("path", .str (pathPosix p)),
    ("summary", df_summary (some f))]

/-- The manifest dictionary literal (src/main.py lines 153-168), with its
top-level keys in source order. -/
def buildRunMetadata (env : Env) (ticker_input ticker_folder : String)
    (out_dir : FPath) (outputs : List (String × J))
    (fis : List (String × J)) : List (String × J) :=
  [("run_started", .str env.run_started),
    ("run_ended", .str env.run_ended),
    ("duration_sec", .num env.duration_sec),
    ("ticker", .str ticker_input),
    ("ticker_folder", .str ticker_folder),
    ("output_dir", .str (pathPosix out_dir)),
    ("generated_files", .obj outputs),
    ("yfinance_fast_info", .obj fis),
    ("versions", .obj [("python", .str env.pythonVersion),
      ("pandas", .str env.pandasVersion),
      ("yfinance", .str env.yfVersion)]),
    ("platform", .str env.platformStr)]

/-- `write_run_metadata` (src/main.py lines 74-78): ensure the parent
directory, write the JSON, print a success notice. -/
def write_run_metadata (p : FPath) (meta : List (String × J)) : List Event :=
  [.mkdirP (pathParent p), .writeJson p meta,
    .msg ("[OK] Saved: " ++ pathPosix p)]

/-- The `generated_files` block of the manifest (src/main.py lines
109-133): one `exportEntry` per statement kind, in the fixed source
order. -/
def mainOutputs (out_dir : FPath)
    (income_statement balance_sheet cash_flow : Option DataFrame) :
    List (String × J) :=
  let clean_income := clean_statement_no_transpose income_statement "income"
  let clean_balance :=
    clean_statement_no_transpose balance_sheet "balance_sheet"
  let clean_cash := clean_statement_no_transpose cash_flow "cash_flow"
  [("income_statement",
      exportEntry (save_csv (some clean_income)
        (out_dir ++ ["income_statement.csv"])).1
        (out_dir ++ ["income_statement.csv"]) clean_income),
    ("balance_sheet",
      exportEntry (save_csv (some clean_balance)
        (out_dir ++ ["balance_sheet.csv"])).1
        (out_dir ++ ["balance_sheet.csv"]) clean_balance),
    ("cash_flow",
      exportEntry (save_csv (some clean_cash)
        (out_dir ++ ["cash_flow.csv"])).1
        (out_dir ++ ["cash_flow.csv"]) clean_cash)]

/-- The complete manifest of a successful run (src/main.py lines
153-168). -/
def mainMeta (env : Env) (ticker_input ticker_folder : String)
    (out_dir : FPath)
    (income_statement balance_sheet cash_flow : Option DataFrame) :
    List (String × J) :=
  buildRunMetadata env ticker_input ticker_folder out_dir
    (mainOutputs out_dir income_statement balance_sheet cash_flow)
    (fastInfoSelected env.fast_info)

/-- The tail of `main` after the three statements were fetched
successfully (src/main.py lines 103-170): clean each statement, export
each, take the quote snapshot, assemble and write the manifest. -/
def mainAfterFetch (env : Env) (ticker_input ticker_folder : String)
    (out_dir : FPath) (ev0 : List Event)
    (income_statement balance_sheet cash_flow : Option DataFrame) :
    RunResult :=
  let clean_income := clean_statement_no_transpose income_statement "income"
  let clean_balance :=
    clean_statement_no_transpose balance_sheet "balance_sheet"
  let clean_cash := clean_statement_no_transpose cash_flow "cash_flow"
  let rI := save_csv (some clean_income)
    (out_dir ++ ["income_statement.csv"])
  let rB := save_csv (some clean_balance)
    (out_dir ++ ["balance_sheet.csv"])
  let rC := save_csv (some clean_cash) (out_dir ++ ["cash_flow.csv"])
  let meta := mainMeta env ticker_input ticker_folder out_dir
    income_statement balance_sheet cash_flow
  .completed (ev0 ++ rI.2 ++ rB.2 ++ rC.2 ++
      write_run_metadata (out_dir ++ ["run_metadata.json"]) meta)
    meta

/-- `main` (src/main.py lines 81-170): read and normalize the ticker, abort
cleanly when it is empty, otherwise create `outputs/<ts>/<folder>`, fetch
the three statements (an exception propagates and ends the run), then
continue with `mainAfterFetch`. -/
def mainRun (env : Env) : RunResult :=
  let ticker_input := pyUpper (pyStrip env.tickerInput)
  if ticker_input = "" then
    .earlyExit [.msg "No ticker entered. Exiting."]
  else
    let ticker_folder := safe_folder_name ticker_input
    let out_dir : FPath := ["outputs", env.ts, ticker_folder]
    let ev0 : List Event := [.mkdirP out_dir]
    match env.financials with
    | .error _ => .fetchError (ev0 ++ [.fetch "financials"])
    | .ok income_statement =>
      match env.balance_sheet with
      | .error _ =>
        .fetchError (ev0 ++ [.fetch "financials", .fetch "balance_sheet"])
      | .ok balance_sheet =>
        match env.cashflow with
        | .error _ =>
          .fetchError (ev0 ++ [.fetch "financials", .fetch "balance_sheet",
            .fetch "cashflow"])
        | .ok cash_flow =>
          mainAfterFetch env ticker_input ticker_folder out_dir
            (ev0 ++ [.fetch "financials", .fetch "balance_sheet",
              .fetch "cashflow"])
            income_statement balance_sheet cash_flow

/-! ### Lemmas about the orchestrator -/

theorem pyUpper_eq_empty {s : String} : pyUpper s = "" ↔ s = "" := by
  constructor
  · intro h
    have hd : (pyUpper s).data = ("" : String).data := congrArg String.data h
    simp only [pyUpper, List.map_eq_nil_iff] at hd
    exact String.ext hd
  · intro h
    subst h
    rfl

theorem mainRun_ok (env : Env) (ht : pyStrip env.tickerInput ≠ "")
    (i b c : Option DataFrame)
    (hi : env.financials = .ok i) (hb : env.balance_sheet = .ok b)
    (hc : env.cashflow = .ok c) :
    mainRun env = mainAfterFetch env (pyUpper (pyStrip env.tickerInput))
      (safe_folder_name (pyUpper (pyStrip env.tickerInput)))
      ["outputs", env.ts,
        safe_folder_name (pyUpper (pyStrip env.tickerInput))]
      ([Event.mkdirP ["outputs", env.ts,
          safe_folder_name (pyUpper (pyStrip env.tickerInput))]] ++
        [Event.fetch "financials", Event.fetch "balance_sheet",
          Event.fetch "cashflow"]) i b c := by
  have ht' : pyUpper (pyStrip env.tickerInput) ≠ "" := fun h =>
    ht (pyUpper_eq_empty.mp h)
  simp only [mainRun, hi, hb, hc, if_neg ht']

/-- The manifest of the post-fetch stage, definitionally. -/
theorem mainAfterFetch_meta (env : Env) (ti tf : String) (od : FPath)
    (ev0 : List Event) (i b c : Option DataFrame) :
    metaOf (mainAfterFetch env ti tf od ev0 i b c) =
      some (mainMeta env ti tf od i b c) := rfl

/-- The key list of `generated_files`, definitionally. -/
theorem mainOutputs_keys (od : FPath) (i b c : Option DataFrame) :
    (mainOutputs od i b c).map Prod.fst =
      ["income_statement", "balance_sheet", "cash_flow"] := rfl

theorem buildRunMetadata_keys (env : Env) (ti tf : String) (od : FPath)
    (outputs fis : List (String × J)) :
    (buildRunMetadata env ti tf od outputs fis).map Prod.fst =
      ["run_started", "run_ended", "duration_sec", "ticker",
        "ticker_folder", "output_dir", "generated_files",
        "yfinance_fast_info", "versions", "platform"] := rfl

theorem buildRunMetadata_lookup_fast_info (env : Env) (ti tf : String)
    (od : FPath) (outputs fis : List (String × J)) :
    List.lookup "yfinance_fast_info"
      (buildRunMetadata env ti tf od outputs fis) = some (.obj fis) := by
  simp [buildRunMetadata, List.lookup]

theorem buildRunMetadata_lookup_generated (env : Env) (ti tf : String)
    (od : FPath) (outputs fis : List (String × J)) :
    List.lookup "generated_files"
      (buildRunMetadata env ti tf od outputs fis) = some (.obj outputs) := by
  simp [buildRunMetadata, List.lookup]

theorem mem_fastInfoSelected_of_ok (f : String → Except Unit J)
    (k : String) (v : J) (hk : k ∈ fiKeys) (hv : f k = .ok v) :
    (k, v) ∈ fastInfoSelected (.ok (some f)) := by
  simp only [fastInfoSelected]
  exact List.mem_filterMap.mpr ⟨k, hk, by simp [hv]⟩

theorem not_mem_fastInfoSelected_of_error (f : String → Except Unit J)
    (k : String) (v : J) (hv : f k = .error ()) :
    (k, v) ∉ fastInfoSelected (.ok (some f)) := by
  intro hmem
  simp only [fastInfoSelected] at hmem
  obtain ⟨a, _, hamem⟩ := List.mem_filterMap.mp hmem
  cases hfa : f a with
  | error e =>
    rw [hfa] at hamem
    simp at hamem
  | ok w =>
    rw [hfa] at hamem
    simp only [Option.some.injEq, Prod.mk.injEq] at hamem
    obtain ⟨rfl, rfl⟩ := hamem
    rw [hfa] at hv
    exact Except.noConfusion hv

theorem fastInfoSelected_all_error (f : String → Except Unit J)
    (hall : ∀ k ∈ fiKeys, f k = .error ()) :
    fastInfoSelected (.ok (some f)) = [] := by
  have h1 : f "currency" = .error () := hall _ (by simp [fiKeys])
  have h2 : f "exchange" = .error () := hall _ (by simp [fiKeys])
  have h3 : f "quoteType" = .error () := hall _ (by simp [fiKeys])
  have h4 : f "marketCap" = .error () := hall _ (by simp [fiKeys])
  have h5 : f "lastPrice" = .error () := hall _ (by simp [fiKeys])
  have h6 : f "previousClose" = .error () := hall _ (by simp [fiKeys])
  have h7 : f "timezone" = .error () := hall _ (by simp [fiKeys])
  simp [fastInfoSelected, fiKeys, List.filterMap_cons, h1, h2, h3, h4, h5,
    h6, h7]

/-! ### Sample environments used by witnesses and counterexamples -/

/-- A one-line-item, one-period raw statement. -/
def sampleDF : DataFrame :=
  ⟨[Label.date 2023 12 31], [("Total Revenue", [Val.int 5])]⟩

/-- A fully successful environment for the ticker `CBA.AX`. -/
def envOk : Env :=
  ⟨"CBA.AX", "20240101_000000", .ok (some sampleDF), .ok none, .ok none,
    .ok none, "2024-01-01T00:00:00+00:00", "2024-01-01T00:00:05+00:00", 5,
    "3.11.0", "2.2.0", "0.2.40", "Linux-x86"⟩

/-- An environment whose operator input is whitespace only. -/
def envEmptyTicker : Env :=
  ⟨"  ", "20240101_000000", .ok none, .ok none, .ok none, .ok none, "s",
    "e", 1, "3.11.0", "2.2.0", "0.2.40", "Linux-x86"⟩

/-- An environment whose income-statement fetch raises. -/
def envFetchFail : Env :=
  ⟨"cba.ax", "20240101_000000", .error (), .ok none, .ok none, .ok none,
    "s", "e", 1, "3.11.0", "2.2.0", "0.2.40", "Linux-x86"⟩

/-- An environment whose quote facility is present but raises on every
field lookup. -/
def envQuoteFail : Env :=
  ⟨"CBA.AX", "20240101_000000", .ok (some sampleDF), .ok none, .ok none,
    .ok (some fun _ => .error ()), "s", "e", 1, "3.11.0", "2.2.0",
    "0.2.40", "Linux-x86"⟩

/-! ### Claims C7, C10, C8, C2 -/

/-- C7: when the operator input is empty after trimming, the run aborts
immediately with the informational message and a clean early return: no
directory is created, no file is written, and the provider is never
contacted. -/
theorem main_empty_ticker (env : Env) (h : pyStrip env.tickerInput = "") :
    mainRun env = .earlyExit [.msg "No ticker entered. Exiting."] ∧
      (∀ p, Event.mkdirP p ∉ eventsOf (mainRun env)) ∧
      (∀ p f, Event.writeCsv p f ∉ eventsOf (mainRun env)) ∧
      (∀ p j, Event.writeJson p j ∉ eventsOf (mainRun env)) ∧
      (∀ a, Event.fetch a ∉ eventsOf (mainRun env)) := by
  have h' : pyUpper (pyStrip env.tickerInput) = "" := by
    rw [h]
    rfl
  have hm : mainRun env = .earlyExit [.msg "No ticker entered. Exiting."] := by
    simp [mainRun, h']
  refine ⟨hm, ?_, ?_, ?_, ?_⟩ <;> (intros; rw [hm]; simp [eventsOf])

/-- Witness for C7 at a whitespace-only operator input. -/
theorem main_empty_ticker_witness :
    mainRun envEmptyTicker =
      .earlyExit [.msg "No ticker entered. Exiting."] :=
  (main_empty_ticker envEmptyTicker (by decide)).1

/-- C10: with a non-empty ticker the orchestrator emits the creation of
`outputs/<ts>/<folder>` as its very first effect, before any statement
fetch; hence whenever any of the three statement fetches raises, the run
aborts with the directory already created and no CSV and no manifest
written. -/
theorem main_mkdir_before_fetch (env : Env)
    (ht : pyStrip env.tickerInput ≠ "") :
    (∃ rest, eventsOf (mainRun env) =
      Event.mkdirP ["outputs", env.ts,
        safe_folder_name (pyUpper (pyStrip env.tickerInput))] :: rest) ∧
    (env.financials = .error () ∨ env.balance_sheet = .error () ∨
        env.cashflow = .error () →
      (∃ evs, mainRun env = .fetchError evs) ∧
      (∀ p f, Event.writeCsv p f ∉ eventsOf (mainRun env)) ∧
      (∀ p j, Event.writeJson p j ∉ eventsOf (mainRun env))) := by
  have ht' : pyUpper (pyStrip env.tickerInput) ≠ "" := fun h =>
    ht (pyUpper_eq_empty.mp h)
  cases hfi : env.financials with
  | error e =>
    have hm : mainRun env = .fetchError
        [Event.mkdirP ["outputs", env.ts,
            safe_folder_name (pyUpper (pyStrip env.tickerInput))],
          Event.fetch "financials"] := by
      simp [mainRun, hfi, if_neg ht']
    constructor
    · exact ⟨[Event.fetch "financials"], by rw [hm]; rfl⟩
    · intro _
      refine ⟨⟨_, hm⟩, ?_, ?_⟩
      · intro p x
        rw [hm]
        simp [eventsOf]
      · intro p x
        rw [hm]
        simp [eventsOf]
  | ok i =>
    cases hba : env.balance_sheet with
    | error e =>
      have hm : mainRun env = .fetchError
          [Event.mkdirP ["outputs", env.ts,
              safe_folder_name (pyUpper (pyStrip env.tickerInput))],
            Event.fetch "financials", Event.fetch "balance_sheet"] := by
        simp [mainRun, hfi, hba, if_neg ht']
      constructor
      · exact ⟨[Event.fetch "financials", Event.fetch "balance_sheet"],
          by rw [hm]; rfl⟩
      · intro _
        refine ⟨⟨_, hm⟩, ?_, ?_⟩
        · intro p x
          rw [hm]
          simp [eventsOf]
        · intro p x
          rw [hm]
          simp [eventsOf]
    | ok b =>
      cases hcf : env.cashflow with
      | error e =>
        have hm : mainRun env = .fetchError
            [Event.mkdirP ["outputs", env.ts,
                safe_folder_name (pyUpper (pyStrip env.tickerInput))],
              Event.fetch "financials", Event.fetch "balance_sheet",
              Event.fetch "cashflow"] := by
          simp [mainRun, hfi, hba, hcf, if_neg ht']
        constructor
        · exact ⟨[Event.fetch "financials", Event.fetch "balance_sheet",
            Event.fetch "cashflow"], by rw [hm]; rfl⟩
        · intro _
          refine ⟨⟨_, hm⟩, ?_, ?_⟩
          · intro p x
            rw [hm]
            simp [eventsOf]
          · intro p x
            rw [hm]
            simp [eventsOf]
      | ok c =>
        constructor
        · rw [mainRun_ok env ht i b c hfi hba hcf]
          exact ⟨_, rfl⟩
        · rintro (habs | habs | habs) <;> exact absurd habs (by simp)

/-- Witness for C10: the fetch-failure branch at a concrete environment
whose income-statement fetch raises. -/
theorem main_mkdir_before_fetch_witness :
    (∃ rest, eventsOf (mainRun envFetchFail) =
      Event.mkdirP ["outputs", "20240101_000000", "CBA_AX"] :: rest) ∧
      (∃ evs, mainRun envFetchFail = .fetchError evs) :=
  ⟨(main_mkdir_before_fetch envFetchFail (by decide)).1,
    ((main_mkdir_before_fetch envFetchFail (by decide)).2 (Or.inl rfl)).1⟩

/-- C8: once the three statements fetched successfully, the run always
completes (the quote stage never aborts it); the manifest's quote-snapshot
field is exactly the per-key selection in which a key whose independent
lookup succeeds appears with its value and a key whose lookup raises is
omitted; when every lookup raises the snapshot is the empty mapping; and
the manifest is written in every case. -/
theorem main_quote_snapshot (env : Env)
    (ht : pyStrip env.tickerInput ≠ "") (i b c : Option DataFrame)
    (hi : env.financials = .ok i) (hb : env.balance_sheet = .ok b)
    (hc : env.cashflow = .ok c) :
    isCompleted (mainRun env) = true ∧
      metaField (mainRun env) "yfinance_fast_info" =
        some (.obj (fastInfoSelected env.fast_info)) ∧
      (∀ f, env.fast_info = .ok (some f) →
        (∀ k v, k ∈ fiKeys → f k = .ok v →
          (k, v) ∈ fastInfoSelected env.fast_info) ∧
        (∀ k v, f k = .error () →
          (k, v) ∉ fastInfoSelected env.fast_info) ∧
        ((∀ k ∈ fiKeys, f k = .error ()) →
          metaField (mainRun env) "yfinance_fast_info" =
            some (.obj []))) ∧
      (∃ j, Event.writeJson (["outputs", env.ts,
          safe_folder_name (pyUpper (pyStrip env.tickerInput))] ++
          ["run_metadata.json"]) j ∈ eventsOf (mainRun env)) := by
  have hm := mainRun_ok env ht i b c hi hb hc
  have hfield : metaField (mainRun env) "yfinance_fast_info" =
      some (.obj (fastInfoSelected env.fast_info)) := by
    rw [hm]
    simp only [metaField, mainAfterFetch_meta, Option.some_bind]
    exact buildRunMetadata_lookup_fast_info env _ _ _ _ _
  refine ⟨by rw [hm]; rfl, hfield, ?_, ?_⟩
  · intro f hf
    refine ⟨?_, ?_, ?_⟩
    · intro k v hk hv
      rw [hf]
      exact mem_fastInfoSelected_of_ok f k v hk hv
    · intro k v hv
      rw [hf]
      exact not_mem_fastInfoSelected_of_error f k v hv
    · intro hall
      rw [hfield, hf, fastInfoSelected_all_error f hall]
  · rw [hm]
    refine ⟨mainMeta env (pyUpper (pyStrip env.tickerInput))
      (safe_folder_name (pyUpper (pyStrip env.tickerInput)))
      ["outputs", env.ts,
        safe_folder_name (pyUpper (pyStrip env.tickerInput))] i b c, ?_⟩
    simp [mainAfterFetch, eventsOf, write_run_metadata]

/-- Witness for C8 at an environment whose every quote-field lookup
raises. -/
theorem main_quote_snapshot_witness :
    isCompleted (mainRun envQuoteFail) = true ∧
      metaField (mainRun envQuoteFail) "yfinance_fast_info" =
        some (.obj (fastInfoSelected envQuoteFail.fast_info)) :=
  ⟨(main_quote_snapshot envQuoteFail (by decide) (some sampleDF) none none
      rfl rfl rfl).1,
    (main_quote_snapshot envQuoteFail (by decide) (some sampleDF) none none
      rfl rfl rfl).2.1⟩

/-- C2 as stated is false on the code: the manifest of a completed run has
no `quote_snapshot` and no `environment` top-level key — the snapshot is
stored under `yfinance_fast_info` and the environment information under
`versions` and `platform`. -/
theorem run_metadata_keys_counterexample :
    isCompleted (mainRun envOk) = true ∧
      "quote_snapshot" ∉ metaKeysOf (mainRun envOk) ∧
      "environment" ∉ metaKeysOf (mainRun envOk) := by
  constructor
  · rfl
  · constructor <;> (intro hmem; revert hmem; decide)

/-- C2 (amended): the manifest of every completed run has exactly the
top-level keys `run_started`, `run_ended`, `duration_sec`, `ticker`,
`ticker_folder`, `output_dir`, `generated_files`, `yfinance_fast_info`
(the quote snapshot), `versions` and `platform` (the environment
information), in this order, and `generated_files` is keyed by
`income_statement`, `balance_sheet` and `cash_flow`. -/
theorem run_metadata_keys (env : Env) (ht : pyStrip env.tickerInput ≠ "")
    (i b c : Option DataFrame)
    (hi : env.financials = .ok i) (hb : env.balance_sheet = .ok b)
    (hc : env.cashflow = .ok c) :
    metaKeysOf (mainRun env) =
      ["run_started", "run_ended", "duration_sec", "ticker",
        "ticker_folder", "output_dir", "generated_files",
        "yfinance_fast_info", "versions", "platform"] ∧
    ∃ gf, metaField (mainRun env) "generated_files" = some (.obj gf) ∧
      gf.map Prod.fst =
        ["income_statement", "balance_sheet", "cash_flow"] := by
  have hm := mainRun_ok env ht i b c hi hb hc
  constructor
  · rw [hm]
    simp only [metaKeysOf, mainAfterFetch_meta, Option.map_some,
      Option.getD_some]
    exact buildRunMetadata_keys env _ _ _ _ _
  · refine ⟨mainOutputs ["outputs", env.ts,
      safe_folder_name (pyUpper (pyStrip env.tickerInput))] i b c, ?_,
      mainOutputs_keys _ _ _ _⟩
    rw [hm]
    simp only [metaField, mainAfterFetch_meta, Option.some_bind]
    exact buildRunMetadata_lookup_generated env _ _ _ _ _

/-- Witness for the amended C2 at a concrete successful environment. -/
theorem run_metadata_keys_witness :
    metaKeysOf (mainRun envOk) =
      ["run_started", "run_ended", "duration_sec", "ticker",
        "ticker_folder", "output_dir", "generated_files",
        "yfinance_fast_info", "versions", "platform"] :=
  (run_metadata_keys envOk (by decide) (some sampleDF) none none rfl rfl
    rfl).1

end FinDl
